import Mathlib

/-!
Verification development for the tiny-hp-monitor Foundry VTT module.

The repository contains several variants of the module:
* `src/scripts/hp-delta.mjs` holds three concatenated variants; the middle
  ("debounced") variant carries the debounce coalescer, item tracking and the
  `tiny-monitor-*` style classes, and the first ("non-debounced") variant wraps
  every hook callback in try/catch and uses the `hp-*` style classes.
* `src/unnamed/part_001` and `src/unnamed/part_002` are earlier variants;
  `part_002` registers the `demonlord` system with `damageSystem = true` and
  posts item quantity lines without the added/deleted special cases.
* `src/unnamed/part_003` is the earliest variant with the `formatDelta` helper.

The definitions below are shallow embeddings of those source functions.
JavaScript numbers on the tracked paths are integer-valued in every code path
the claims touch, so finite numbers are modelled as `Int`; non-finite and
non-numeric values are modelled by dedicated `JsValue` constructors.
-/

namespace TinyHpMonitor

/-- A JavaScript value as seen by the module when reading a dotted path.
`num` is a finite number, `nonfinite` is `NaN` or `±Infinity`, `strNum n` is a
string that `Number()` parses to the finite number `n`, `strOther` is any other
string, `objv` a plain object. -/
inductive JsValue where
  | num (n : Int)
  | nonfinite
  | boolv (b : Bool)
  | nullv
  | undef
  | strNum (n : Int)
  | strOther
  | objv
deriving DecidableEq, Repr

/-- `Number(v)` together with the `Number.isFinite` test of the source:
`some n` exactly when `Number(v)` is finite with value `n`.
(`Number(null) = 0`, `Number(true) = 1`, `Number(undefined) = NaN`.) -/
def JsValue.toNumber : JsValue → Option Int
  | .num n => some n
  | .nonfinite => none
  | .boolv b => some (if b then 1 else 0)
  | .nullv => some 0
  | .undef => none
  | .strNum n => some n
  | .strOther => none
  | .objv => none

/-- An actor (or item) document restricted to what the module reads: a map
from dotted path to the value stored there (`undef` when absent). -/
def Doc : Type := String → JsValue

/-- `readNumber(doc, path)` from the source (all variants): `0` for a null
path, otherwise `Number(getProperty(doc, path))` when finite, else `0`. -/
def readNumber (doc : Doc) : Option String → Int
  | none => 0
  | some p => (JsValue.toNumber (doc p)).getD 0

/-- `clipName` parametrised by the character budget and suffix; the body is
shared verbatim by all variants: `Array.from` splits the string into whole
code points, so the model works on `String.toList`. -/
def clipNameAux (budget : Nat) (suffix : String) (name : String) : String :=
  let chars := name.toList
  if chars.length ≤ budget then String.mk chars
  else String.mk (chars.take budget) ++ suffix

/-- `clipName` of `src/scripts/hp-delta.mjs` lines 430-434 (debounced
variant): budget 25, ellipsis suffix. -/
def clipName (name : String) : String := clipNameAux 25 "…" name

/-- `clipName` of `src/unnamed/part_001` lines 15-19: budget 30, suffix
`"[...]"`. -/
def clipNameLegacy (name : String) : String := clipNameAux 30 "[...]" name

-- The three candidate lists probed by `detectSystemPaths` of
-- `src/scripts/hp-delta.mjs` lines 469-471 (debounced variant).
def candidatesHP : List String :=
  ["system.attributes.hp.value", "system.hp.value", "system.health.value"]

def candidatesTemp : List String :=
  ["system.attributes.hp.temp", "system.hp.temp"]

def candidatesTempMax : List String :=
  ["system.attributes.hp.tempmax", "system.hp.tempmax"]

/-- The resolved path table of the debounced variant (`detectSystemPaths` /
`resolvePaths` return shape). -/
structure PathTable where
  hpPath : Option String
  tempPath : Option String
  tempMaxPath : Option String
  damageSystem : Bool
deriving DecidableEq, Repr

/-- `candidates.find(p => Number.isFinite(Number(getProperty(sample, p)))) || null`
from `detectSystemPaths` (lines 473-475): `List.find?` returns the first
candidate whose value coerces to a finite number, or `none`. -/
def probeField (sample : Doc) (cands : List String) : Option String :=
  cands.find? (fun p => (JsValue.toNumber (sample p)).isSome)

/-- `detectSystemPaths` of `src/scripts/hp-delta.mjs` lines 454-478 for an
unknown system id: the heuristic probe branch (`damageSystem` is `false`
there). -/
def detectSystemPathsProbe (sample : Doc) : PathTable :=
  { hpPath := probeField sample candidatesHP
    tempPath := probeField sample candidatesTemp
    tempMaxPath := probeField sample candidatesTempMax
    damageSystem := false }

/-- Modelled from the spec's words for claim C9 ("probe a fixed ordered list of
candidate locations per field ...; select the first candidate whose resolved
value parses as the expected kind; if none match, the field resolves to
null"): explicit first-match recursion over the candidate list. -/
def firstFiniteCandidate (sample : Doc) : List String → Option String
  | [] => none
  | p :: ps =>
    if (JsValue.toNumber (sample p)).isSome then some p
    else firstFiniteCandidate sample ps

/-- The spec-side probe table for claim C9, assembled field by field from
`firstFiniteCandidate`. -/
def detectSystemPathsSpec (sample : Doc) : PathTable :=
  { hpPath := firstFiniteCandidate sample candidatesHP
    tempPath := firstFiniteCandidate sample candidatesTemp
    tempMaxPath := firstFiniteCandidate sample candidatesTempMax
    damageSystem := false }

lemma find?_eq_firstFiniteCandidate (sample : Doc) (l : List String) :
    l.find? (fun p => (JsValue.toNumber (sample p)).isSome)
      = firstFiniteCandidate sample l := by
  induction l with
  | nil => rfl
  | cons p ps ih =>
    simp only [List.find?, firstFiniteCandidate]
    by_cases h : (JsValue.toNumber (sample p)).isSome
    · simp [h]
    · simp only [Bool.not_eq_true] at h
      simp [h, ih]

/-- One posted chat message of the debounced variant, reduced to the pieces
the module computes: the text handed to `buildMonitorLine`, the style class
and the message kind. -/
structure Post where
  text : String
  cls : String
  kind : String
deriving DecidableEq, Repr

/-- The HP style class of `processActorUpdate`
(`src/scripts/hp-delta.mjs` line 829):
`(damageSystem ? delta < 0 : delta > 0) ? "tiny-monitor-gain" : "tiny-monitor-loss"`. -/
def hpCls (damageSystem : Bool) (delta : Int) : String :=
  if (if damageSystem then delta < 0 else delta > 0)
  then "tiny-monitor-gain" else "tiny-monitor-loss"

/-- The HP style class of the `part_002` variant
(`src/unnamed/part_002` lines 523-524). -/
def hpClsPart002 (damageSystem : Bool) (delta : Int) : String :=
  if damageSystem then (if delta < 0 then "hp-gain" else "hp-loss")
  else (if delta > 0 then "hp-gain" else "hp-loss")

/-- The HP branch of `processActorUpdate` (`src/scripts/hp-delta.mjs`
lines 825-842): posts nothing unless a before-value was stashed, the path is
resolved and the effective delta is non-zero. -/
def hpPost (isSimple : Bool) (paths : PathTable) (actor : Doc)
    (oldHP : Option Int) : Option Post :=
  match oldHP, paths.hpPath with
  | some old, some _ =>
    let newHP := readNumber actor paths.hpPath
    let delta := newHP - old
    if delta = 0 then none
    else
      let sign := if delta > 0 then "+" else "-"
      let mag := delta.natAbs
      let label := if paths.damageSystem then "Damage" else "HP"
      let text :=
        if isSimple then label ++ ": " ++ sign ++ " " ++ toString mag
        else label ++ ": " ++ toString old ++ " " ++ sign ++ " " ++ toString mag
               ++ " → " ++ toString newHP
      some { text := text, cls := hpCls paths.damageSystem delta, kind := "hp" }
  | _, _ => none

/-- The Temp HP branch of `processActorUpdate` (lines 845-861). -/
def tempPost (isSimple : Bool) (paths : PathTable) (actor : Doc)
    (oldTHP : Option Int) : Option Post :=
  match oldTHP, paths.tempPath with
  | some old, some _ =>
    let newTHP := readNumber actor paths.tempPath
    let delta := newTHP - old
    if delta = 0 then none
    else
      let sign := if delta > 0 then "+" else "-"
      let mag := delta.natAbs
      let text :=
        if isSimple then "Temp: " ++ sign ++ " " ++ toString mag
        else "Temp: " ++ toString old ++ " " ++ sign ++ " " ++ toString mag
               ++ " → " ++ toString newTHP
      some { text := text, cls := "tiny-monitor-temp", kind := "temp" }
  | _, _ => none

/-- The Temp Max HP branch of `processActorUpdate` (lines 864-880). -/
def tempMaxPost (isSimple : Bool) (paths : PathTable) (actor : Doc)
    (oldTHPMax : Option Int) : Option Post :=
  match oldTHPMax, paths.tempMaxPath with
  | some old, some _ =>
    let newTHPMax := readNumber actor paths.tempMaxPath
    let delta := newTHPMax - old
    if delta = 0 then none
    else
      let sign := if delta > 0 then "+" else "-"
      let mag := delta.natAbs
      let text :=
        if isSimple then "Temp Max: " ++ sign ++ " " ++ toString mag
        else "Temp Max: " ++ toString old ++ " " ++ sign ++ " " ++ toString mag
               ++ " → " ++ toString newTHPMax
      some { text := text, cls := "tiny-monitor-tempmax", kind := "tempmax" }
  | _, _ => none

/-- `formatDelta` of `src/unnamed/part_003` lines 14-17:
`(delta >= 0 ? "+" : "-") + " " + Math.abs(delta)`. -/
def formatDelta (delta : Int) : String :=
  (if delta ≥ 0 then "+" else "-") ++ " " ++ toString delta.natAbs

/-- Modelled from the spec's words for claim C4 ("formatted text shows `+`
iff delta > 0, magnitude = |delta|", rendered
`"<label>: <old> <sign> <magnitude> → <new>"`). -/
def specSignedLine (label : String) (old new : Int) : String :=
  label ++ ": " ++ toString old ++ " "
    ++ (if new - old > 0 then "+" else "-") ++ " "
    ++ toString (new - old).natAbs ++ " → " ++ toString new

/-- The static system table of `detectSystemPaths` in `src/unnamed/part_002`
lines 50-83; `demonlord` is the one system flagged `damageSystem = true`.
`none` means the probe branch runs instead. -/
def detectSystemPathsPart002Known (sys : String) : Option PathTable :=
  if sys = "demonlord" then
    some { hpPath := some "system.characteristics.health.value"
           tempPath := none
           tempMaxPath := some "system.characteristics.health.max"
           damageSystem := true }
  else if sys = "dnd5e" then
    some { hpPath := some "system.attributes.hp.value"
           tempPath := some "system.attributes.hp.temp"
           tempMaxPath := some "system.attributes.hp.tempmax"
           damageSystem := false }
  else if sys = "pf2e" then
    some { hpPath := some "system.attributes.hp.value"
           tempPath := some "system.attributes.hp.temp"
           tempMaxPath := none
           damageSystem := false }
  else if sys = "shadowdark" then
    some { hpPath := some "system.hp.value"
           tempPath := none
           tempMaxPath := none
           damageSystem := false }
  else none

/-- The quantity branch of `processItemUpdate` (`src/scripts/hp-delta.mjs`
lines 1065-1095, debounced variant): result is the text handed to
`buildMonitorLine` together with the style class, or `none` when no message
is posted. -/
def itemQtyPost (isSimple : Bool) (safeItemName : String)
    (oldQty newQty : Int) : Option (String × String) :=
  if newQty = oldQty then none
  else if oldQty = 0 ∧ newQty = 1 then
    some ("added " ++ safeItemName, "tiny-monitor-item-inc")
  else if oldQty = 1 ∧ newQty = 0 then
    some ("deleted " ++ safeItemName, "tiny-monitor-item-dec")
  else
    let delta := newQty - oldQty
    let sign := if delta > 0 then "+" else "-"
    let mag := delta.natAbs
    let text :=
      if isSimple then sign ++ " " ++ toString mag
      else toString oldQty ++ " " ++ sign ++ " " ++ toString mag
             ++ " → " ++ toString newQty
    some (safeItemName ++ ": " ++ text,
          if delta > 0 then "tiny-monitor-item-inc" else "tiny-monitor-item-dec")

/-- The quantity branch of the `updateItem` hook in `src/unnamed/part_002`
lines 688-698: every change with `newQty !== oldQty` posts the full signed
transition line; there is no added/deleted special case in this variant. -/
def itemQtyLinePart002 (displayName safeItemName : String)
    (oldQty newQty : Int) : Option String :=
  if newQty = oldQty then none
  else
    let sign := if newQty - oldQty > 0 then "+" else "-"
    let mag := (newQty - oldQty).natAbs
    some (displayName ++ "\x27s Item: " ++ safeItemName ++ " — "
            ++ toString oldQty ++ " " ++ sign ++ " " ++ toString mag
            ++ " → " ++ toString newQty)

/-- The payload captured by the `preDeleteItem` hook (lines 1108-1119):
`qty` is `readNumber(item, "system.quantity")` (so already coerced) and
`hasQty` is `hasProperty(item, "system.quantity")`. The actor link and
whisper list do not affect whether a message is posted and are omitted. -/
structure DeleteStash where
  name : String
  qty : Int
  hasQty : Bool
deriving DecidableEq, Repr

/-- The `deleteItem` hook body after the gating checks
(`src/scripts/hp-delta.mjs` lines 1121-1145): `none` when no stash exists or
when the item tracks a quantity that was already `0`; otherwise the posted
line. -/
def deleteItemLine (isSimple : Bool) (stash : Option DeleteStash) : Option String :=
  match stash with
  | none => none
  | some s =>
    let oldQty := s.qty
    if s.hasQty ∧ oldQty = 0 then none
    else
      let treatAsSingleton := ¬s.hasQty ∨ oldQty ≤ 1
      if treatAsSingleton ∨ isSimple then some ("deleted " ++ s.name)
      else some (s.name ++ ": " ++ toString oldQty ++ " - " ++ toString oldQty ++ " → 0")

/-- A host user as read by `buildRecipients`: its id and game-master flag.
Ownership is a separate predicate supplied per actor
(`actor.testUserPermission`). -/
structure User where
  id : String
  isGM : Bool
deriving DecidableEq, Repr

/-- Walk the flattened user list keeping the first occurrence of each id
(`seen` is the set of ids already inserted into the JS `Map`). -/
def dedupeByIdAux (seen : List String) : List User → List User
  | [] => []
  | u :: us =>
    if u.id ∈ seen then dedupeByIdAux seen us
    else u :: dedupeByIdAux (u.id :: seen) us

/-- The `uniq` helper of `buildRecipients`
(`new Map(lists.flat().map(u => [u.id, u])).values()`): a JS `Map` keeps keys
in first-insertion order, so the id sequence of the result is the input with
later duplicate ids dropped. (The `Map` stores the last object per id, but
only ids are read downstream, so keeping the first occurrence is
observationally identical.) -/
def dedupeById (l : List User) : List User := dedupeByIdAux [] l

/-- `buildRecipients` of `src/scripts/hp-delta.mjs` lines 530-542 (debounced
variant): no emptiness fallback. `mode` is the `npcAudience` setting after its
`?? "gm-owners"` default. -/
def buildRecipients (users : List User) (ownerTest : User → Bool)
    (actorType mode : String) : List String :=
  let gmUsers := users.filter (fun u => u.isGM)
  let owners := users.filter ownerTest
  if actorType = "npc" ∧ mode = "gm" then gmUsers.map (fun u => u.id)
  else if actorType = "npc" ∧ mode = "gm-players" then
    (dedupeById (gmUsers ++ users.filter (fun u => !u.isGM))).map (fun u => u.id)
  else (dedupeById (gmUsers ++ owners)).map (fun u => u.id)

/-- The recipients computed by `buildRecipients` of `src/scripts/hp-delta.mjs`
lines 169-191 (non-debounced variant) before its safety fallback runs. -/
def computedRecipients (users : List User) (ownerTest : User → Bool)
    (actorType mode : String) : List User :=
  let gmUsers := users.filter (fun u => u.isGM)
  let owners := users.filter ownerTest
  if actorType = "npc" then
    if mode = "gm" then gmUsers
    else if mode = "gm-players" then
      dedupeById (gmUsers ++ users.filter (fun u => !u.isGM))
    else dedupeById (gmUsers ++ owners)
  else dedupeById (gmUsers ++ owners)

/-- `buildRecipients` of lines 169-191 including the safety fallback
(`if (!recipients?.length) recipients = gmUsers`). -/
def buildRecipientsFallback (users : List User) (ownerTest : User → Bool)
    (actorType mode : String) : List String :=
  let gmUsers := users.filter (fun u => u.isGM)
  let recipients := computedRecipients users ownerTest actorType mode
  let recipients := if recipients.isEmpty then gmUsers else recipients
  recipients.map (fun u => u.id)

/-- The payload stashed by `preUpdateActor` into `options[MOD_ID]`
(`src/scripts/hp-delta.mjs` lines 749-757), restricted to the HP-family
fields; `none` models `undefined` (the field was not touched by this
update). The currency/death-save/spell-slot sub-payloads follow the same
first-write-wins merge and are not needed by any claim. -/
structure ActorPayload where
  oldHP : Option Int := none
  oldTHP : Option Int := none
  oldTHPMax : Option Int := none
  oldInspiration : Option Bool := none
deriving DecidableEq, Repr

/-- The per-record accumulator stored in `ACTOR_DEBOUNCE` (lines 770-779),
HP-family fields. The timer handle is modelled by the state machine below
rather than stored here. -/
@[ext]
structure PendingBucket where
  oldHP : Option Int := none
  oldTHP : Option Int := none
  oldTHPMax : Option Int := none
  oldInspiration : Option Bool := none
deriving DecidableEq, Repr

/-- The freshly created bucket (`ACTOR_DEBOUNCE.get(uuid) ?? { ... }`). -/
def emptyBucket : PendingBucket := {}

/-- One per-field merge step: `if (pending.x === undefined) pending.x = payload.x`. -/
def fieldMerge {α : Type} : Option α → Option α → Option α
  | none, b => b
  | some v, _ => some v

/-- The merge logic of the `updateActor` hook (lines 785-788): keep the
original old value when one is already pending, adopt the payload's value
otherwise. -/
def ingestPayload (pending : PendingBucket) (payload : ActorPayload) : PendingBucket :=
  { oldHP := fieldMerge pending.oldHP payload.oldHP
    oldTHP := fieldMerge pending.oldTHP payload.oldTHP
    oldTHPMax := fieldMerge pending.oldTHPMax payload.oldTHPMax
    oldInspiration := fieldMerge pending.oldInspiration payload.oldInspiration }

/-- Events observed by one record's debounce entry: an `updateActor`
invocation carrying a stashed payload (which also clears and resets the quiet
timer, lines 781-816), or the expiry of the pending timer. -/
inductive DebounceEvent where
  | update (payload : ActorPayload)
  | timerFire
deriving DecidableEq, Repr

/-- One step of the per-record debounce machine. State: the open bucket (or
`none`); output: the buckets handed to `processActorUpdate` so far. An
`update` opens or merges into the bucket (the old timer was cleared, so a
previously scheduled fire never happens); `timerFire` flushes once and
deletes the entry (lines 813-816). -/
def debounceStep : Option PendingBucket × List PendingBucket → DebounceEvent →
    Option PendingBucket × List PendingBucket
  | (st, out), .update payload => (some (ingestPayload (st.getD emptyBucket) payload), out)
  | (some pending, out), .timerFire => (none, out ++ [pending])
  | (none, out), .timerFire => (none, out)

/-- Run the debounce machine from the initial state (no bucket, no flushes). -/
def debounceRun (events : List DebounceEvent) : Option PendingBucket × List PendingBucket :=
  events.foldl debounceStep (none, [])

/-- Modelled from the spec's words for claim C1: the first defined value in a
sequence of per-update stashed values ("`earliestBefore` is fixed at first
insertion and never overwritten"). -/
def earliestDefined {α : Type} : List (Option α) → Option α
  | [] => none
  | some v :: _ => some v
  | none :: rest => earliestDefined rest

/-- Modelled from the spec's words for claim C1: the bucket a burst of
updates must flush — per field, the earliest defined before-value. -/
def mergedBucketSpec (ps : List ActorPayload) : PendingBucket :=
  { oldHP := earliestDefined (ps.map (fun p => p.oldHP))
    oldTHP := earliestDefined (ps.map (fun p => p.oldTHP))
    oldTHPMax := earliestDefined (ps.map (fun p => p.oldTHPMax))
    oldInspiration := earliestDefined (ps.map (fun p => p.oldInspiration)) }

/-- The host state read by the hook callbacks that bears on exception
propagation: `game.system` (`none` models `undefined`) and the `options`
object passed to the hook (`none` models `undefined`). -/
structure HookHost where
  system : Option String
  options : Option Unit
deriving DecidableEq, Repr

/-- The member access `game.system.id` (no optional chaining): a JS
`TypeError` when `game.system` is `undefined`. -/
def jsIdOf : Option String → Except String String
  | some s => Except.ok s
  | none => Except.error "TypeError: Cannot read properties of undefined (reading id)"

/-- The property write `options[MOD_ID] = ...`: a JS `TypeError` when
`options` is `undefined`. -/
def jsAssignModuleOptions : Option Unit → Except String Unit
  | some _ => Except.ok ()
  | none => Except.error "TypeError: Cannot set properties of undefined"

/-- `willUpdatePath(update, path)` (lines 526-528): `update` is modelled as
the set of dotted paths the change set touches. -/
def willUpdatePath (update : List String) : Option String → Bool
  | none => false
  | some p => update.contains p

/-- The `preUpdateActor` callback of the debounced variant
(`src/scripts/hp-delta.mjs` lines 710-758), restricted to the HP-family
fields: it reads `game.system.id` without optional chaining (line 712) and,
when any tracked path is touched, assigns `options[MOD_ID]` without first
defaulting `options` (line 749). It is registered with no try/catch, so any
error is returned to the dispatch loop. -/
def preUpdateActorDebounced (host : HookHost) (paths : PathTable)
    (update : List String) : Except String Unit :=
  (jsIdOf host.system).bind (fun _sys =>
    let willHP := willUpdatePath update paths.hpPath
    let willTHP := willUpdatePath update paths.tempPath
    let willTHPMax := willUpdatePath update paths.tempMaxPath
    if willHP || willTHP || willTHPMax then jsAssignModuleOptions host.options
    else Except.ok ())

/-- The body of the `preUpdateActor` callback of the non-debounced variant
(lines 276-300): it uses `game.system?.id` (optional chaining) and runs
`options ??= {}` before writing, so the write targets a defined object. -/
def preUpdateActorBody (host : HookHost) (paths : PathTable)
    (update : List String) : Except String Unit :=
  let _sys := host.system.getD ""
  let willHP := willUpdatePath update paths.hpPath
  let willTHP := willUpdatePath update paths.tempPath
  let willTHPMax := willUpdatePath update paths.tempMaxPath
  if willHP || willTHP || willTHPMax then jsAssignModuleOptions (some ())
  else Except.ok ()

/-- The `preUpdateActor` callback of the non-debounced variant (lines
275-304): the whole body is inside `try { ... } catch (err) { console.error }`,
so the callback always returns normally. -/
def preUpdateActorWrapped (host : HookHost) (paths : PathTable)
    (update : List String) : Except String Unit :=
  match preUpdateActorBody host paths update with
  | Except.ok _ => Except.ok ()
  | Except.error _ => Except.ok ()

-- Shared concrete inputs used by the witnesses.

/-- An actor whose resolved dnd5e HP path holds the finite number `n` and
whose every other path is absent. -/
def actorHp (n : Int) : Doc :=
  fun p => if p = "system.attributes.hp.value" then JsValue.num n else JsValue.undef

/-- The static dnd5e path table (`detectSystemPaths`, debounced variant
lines 457-464). -/
def dnd5ePaths : PathTable :=
  { hpPath := some "system.attributes.hp.value"
    tempPath := some "system.attributes.hp.temp"
    tempMaxPath := some "system.attributes.hp.tempmax"
    damageSystem := false }

-- Debounce machinery lemmas.

lemma debounce_updates (ps : List ActorPayload) (b : PendingBucket)
    (out : List PendingBucket) :
    (ps.map DebounceEvent.update).foldl debounceStep (some b, out)
      = (some (ps.foldl ingestPayload b), out) := by
  induction ps generalizing b with
  | nil => rfl
  | cons p ps ih =>
    simp only [List.map_cons, List.foldl_cons]
    exact ih (ingestPayload b p)

lemma foldl_fieldMerge_some {α : Type} (l : List (Option α)) (v : α) :
    l.foldl fieldMerge (some v) = some v := by
  induction l with
  | nil => rfl
  | cons a l ih => simpa [List.foldl_cons, fieldMerge] using ih

lemma foldl_fieldMerge_none {α : Type} (l : List (Option α)) :
    l.foldl fieldMerge none = earliestDefined l := by
  induction l with
  | nil => rfl
  | cons a l ih =>
    cases a with
    | none => simpa [List.foldl_cons, fieldMerge, earliestDefined] using ih
    | some v => simp [List.foldl_cons, fieldMerge, earliestDefined, foldl_fieldMerge_some]

lemma foldl_ingest_fields (ps : List ActorPayload) (b : PendingBucket) :
    ps.foldl ingestPayload b =
      { oldHP := (ps.map (fun p => p.oldHP)).foldl fieldMerge b.oldHP
        oldTHP := (ps.map (fun p => p.oldTHP)).foldl fieldMerge b.oldTHP
        oldTHPMax := (ps.map (fun p => p.oldTHPMax)).foldl fieldMerge b.oldTHPMax
        oldInspiration :=
          (ps.map (fun p => p.oldInspiration)).foldl fieldMerge b.oldInspiration } := by
  induction ps generalizing b with
  | nil => rfl
  | cons p ps ih =>
    simp only [List.foldl_cons, List.map_cons]
    exact ih (ingestPayload b p)

lemma foldl_ingest_empty_eq_spec (ps : List ActorPayload) :
    ps.foldl ingestPayload emptyBucket = mergedBucketSpec ps := by
  rw [foldl_ingest_fields]
  unfold mergedBucketSpec emptyBucket
  simp [foldl_fieldMerge_none]

/-- C1: rapid delta events for one record inside a quiet period merge so
that, per field, the before-value captured at the first defined insertion is
never overwritten while the bucket is open; when the quiet timer fires, the
machine flushes exactly once, handing `processActorUpdate` the bucket whose
per-field before-values are the earliest defined ones (the latest
after-values are then read off the actor), and the bucket is discarded. -/
theorem c1_debounce_coalesces (ps : List ActorPayload) (hne : ps ≠ []) :
    (∀ (b : PendingBucket) (q : ActorPayload) (v : Int),
        b.oldHP = some v → (ingestPayload b q).oldHP = some v) ∧
    debounceRun (ps.map DebounceEvent.update ++ [DebounceEvent.timerFire])
      = (none, [mergedBucketSpec ps]) := by
  constructor
  · intro b q v h
    simp [ingestPayload, h, fieldMerge]
  · cases ps with
    | nil => exact absurd rfl hne
    | cons p ps =>
      unfold debounceRun
      rw [List.foldl_append]
      simp only [List.map_cons, List.foldl_cons]
      have h1 : debounceStep (none, ([] : List PendingBucket)) (DebounceEvent.update p)
          = (some (ingestPayload emptyBucket p), []) := rfl
      rw [h1, debounce_updates]
      have h3 : ps.foldl ingestPayload (ingestPayload emptyBucket p)
          = mergedBucketSpec (p :: ps) := by
        have h := foldl_ingest_empty_eq_spec (p :: ps)
        simpa [List.foldl_cons] using h
      rw [h3]
      rfl

/-- The burst of the spec's example: three rapid mutations of the HP field
with before-values 10, 12, 9 (the writes 10→12→9→14). -/
def burstExample : List ActorPayload :=
  [{ oldHP := some 10 }, { oldHP := some 12 }, { oldHP := some 9 }]

theorem c1_debounce_coalesces_witness :
    burstExample ≠ [] ∧
    debounceRun (burstExample.map DebounceEvent.update ++ [DebounceEvent.timerFire])
      = (none, [{ oldHP := some 10 }]) ∧
    hpPost false dnd5ePaths (actorHp 14) (some 10)
      = some { text := "HP: 10 + 4 → 14", cls := "tiny-monitor-gain", kind := "hp" } := by
  refine ⟨by decide, ?_, by rfl⟩
  have h := (c1_debounce_coalesces burstExample (by decide)).2
  rw [h]
  rfl

/-- C9: for an unknown system id, `detectSystemPaths` resolves each HP
field to the first candidate path whose value on the sample record coerces
to a finite number, and to null when no candidate matches; the probe is a
total function (no error outcome). -/
theorem c9_probe_selects_first (sample : Doc) :
    detectSystemPathsProbe sample = detectSystemPathsSpec sample ∧
    (((detectSystemPathsProbe sample).hpPath = none) ↔
      ∀ p ∈ candidatesHP, JsValue.toNumber (sample p) = none) := by
  constructor
  · unfold detectSystemPathsProbe detectSystemPathsSpec probeField
    rw [find?_eq_firstFiniteCandidate, find?_eq_firstFiniteCandidate,
      find?_eq_firstFiniteCandidate]
  · unfold detectSystemPathsProbe probeField
    rw [List.find?_eq_none]
    constructor
    · intro h p hp
      have := h p hp
      simpa [Option.isSome_iff_exists, Option.eq_none_iff_forall_not_mem] using this
    · intro h p hp
      simp [h p hp]

/-- A sample record for the probe witness: only `system.hp.value` holds a
finite number, so the second HP candidate is selected and the temp fields
resolve to null. -/
def probeSample : Doc :=
  fun p => if p = "system.hp.value" then JsValue.num 7 else JsValue.undef

theorem c9_probe_selects_first_witness :
    detectSystemPathsProbe probeSample = detectSystemPathsSpec probeSample ∧
    (detectSystemPathsProbe probeSample).hpPath = some "system.hp.value" ∧
    (detectSystemPathsProbe probeSample).tempPath = none := by
  exact ⟨(c9_probe_selects_first probeSample).1, by rfl, by rfl⟩

/-- C8: `clipName` returns its input unchanged (no suffix) when the count of
whole characters is at most the budget (25 for the main variant, 30 for the
`part_001` variant), and otherwise exactly the first budget whole characters
followed by the ellipsis marker; the decomposition of the result shows the
cut falls on a character boundary (a multi-unit display character is one
`Char` here, as it is one element of JavaScript `Array.from`). -/
theorem c8_clip_name (name : String) :
    (name.toList.length ≤ 25 → clipName name = name) ∧
    (25 < name.toList.length →
        clipName name = String.mk (name.toList.take 25) ++ "…" ∧
        (clipName name).toList = name.toList.take 25 ++ "…".toList) ∧
    (name.toList.length ≤ 30 → clipNameLegacy name = name) ∧
    (30 < name.toList.length →
        clipNameLegacy name = String.mk (name.toList.take 30) ++ "[...]" ∧
        (clipNameLegacy name).toList = name.toList.take 30 ++ "[...]".toList) := by
  refine ⟨fun h => ?_, fun h => ⟨?_, ?_⟩, fun h => ?_, fun h => ⟨?_, ?_⟩⟩ <;>
    simp only [clipName, clipNameLegacy, clipNameAux]
  · rw [if_pos h]
    rfl
  · rw [if_neg (by omega)]
  · rw [if_neg (by omega)]
    rfl
  · rw [if_pos h]
    rfl
  · rw [if_neg (by omega)]
  · rw [if_neg (by omega)]
    rfl

theorem c8_clip_name_witness :
    25 < (String.mk (List.replicate 26 '😀')).toList.length ∧
    clipName (String.mk (List.replicate 26 '😀'))
      = String.mk (List.replicate 25 '😀') ++ "…" ∧
    clipName "short name" = "short name" := by
  refine ⟨by decide, ?_, (c8_clip_name "short name").1 (by decide)⟩
  have h := (c8_clip_name (String.mk (List.replicate 26 '😀'))).2.1 (by decide)
  rw [h.1]
  rfl

/-- C3: when the effective before and after values of a tracked numeric
field coincide (each read through `readNumber`, which coerces a missing or
non-numeric value to 0), no chat line is produced for that field. -/
theorem c3_noop_suppressed (isSimple : Bool) (paths : PathTable) (actor : Doc)
    (old : Int) :
    (readNumber actor paths.hpPath = old →
        hpPost isSimple paths actor (some old) = none) ∧
    (readNumber actor paths.tempPath = old →
        tempPost isSimple paths actor (some old) = none) ∧
    (readNumber actor paths.tempMaxPath = old →
        tempMaxPost isSimple paths actor (some old) = none) := by
  refine ⟨fun h => ?_, fun h => ?_, fun h => ?_⟩
  · cases hp : paths.hpPath with
    | none => simp [hpPost, hp]
    | some p =>
      rw [hp] at h
      simp [hpPost, hp, h]
  · cases hp : paths.tempPath with
    | none => simp [tempPost, hp]
    | some p =>
      rw [hp] at h
      simp [tempPost, hp, h]
  · cases hp : paths.tempMaxPath with
    | none => simp [tempMaxPost, hp]
    | some p =>
      rw [hp] at h
      simp [tempMaxPost, hp, h]

theorem c3_noop_suppressed_witness :
    readNumber (actorHp 10) dnd5ePaths.hpPath = 10 ∧
    hpPost false dnd5ePaths (actorHp 10) (some 10) = none := by
  exact ⟨rfl, (c3_noop_suppressed false dnd5ePaths (actorHp 10) 10).1 rfl⟩

/-- C4: a posted numeric change line with non-zero delta shows sign `+`
exactly when `delta = new - old > 0` and `-` otherwise, and magnitude
`|delta|`, in the shape `<label>: <old> <sign> <magnitude> → <new>`; the
`formatDelta` helper of `part_003` agrees on every non-zero delta. -/
theorem c4_sign_magnitude (paths : PathTable) (actor : Doc) (old : Int)
    (hds : paths.damageSystem = false) (hp : paths.hpPath ≠ none)
    (hneq : readNumber actor paths.hpPath ≠ old) :
    hpPost false paths actor (some old)
      = some { text := specSignedLine "HP" old (readNumber actor paths.hpPath)
               cls := if readNumber actor paths.hpPath - old > 0
                      then "tiny-monitor-gain" else "tiny-monitor-loss"
               kind := "hp" } ∧
    (0 < readNumber actor paths.hpPath - old →
        formatDelta (readNumber actor paths.hpPath - old)
          = "+" ++ " " ++ toString (readNumber actor paths.hpPath - old).natAbs) ∧
    (readNumber actor paths.hpPath - old < 0 →
        formatDelta (readNumber actor paths.hpPath - old)
          = "-" ++ " " ++ toString (readNumber actor paths.hpPath - old).natAbs) ∧
    (∀ oldT : Int, paths.tempPath ≠ none →
        readNumber actor paths.tempPath ≠ oldT →
        tempPost false paths actor (some oldT)
          = some { text := specSignedLine "Temp" oldT (readNumber actor paths.tempPath)
                   cls := "tiny-monitor-temp", kind := "temp" }) ∧
    (∀ oldM : Int, paths.tempMaxPath ≠ none →
        readNumber actor paths.tempMaxPath ≠ oldM →
        tempMaxPost false paths actor (some oldM)
          = some { text := specSignedLine "Temp Max" oldM (readNumber actor paths.tempMaxPath)
                   cls := "tiny-monitor-tempmax", kind := "tempmax" }) := by
  refine ⟨?_, fun h => ?_, fun h => ?_, fun oldT hT hTneq => ?_, fun oldM hM hMneq => ?_⟩
  · cases hpp : paths.hpPath with
    | none => exact absurd hpp hp
    | some p =>
      rw [hpp] at hneq
      simp only [hpPost, hpp, hds]
      rw [if_neg (sub_ne_zero.mpr hneq)]
      simp [specSignedLine, hpCls]
  · unfold formatDelta
    rw [if_pos (le_of_lt h)]
  · unfold formatDelta
    rw [if_neg (not_le.mpr h)]
  · cases hpp : paths.tempPath with
    | none => exact absurd hpp hT
    | some p =>
      rw [hpp] at hTneq
      simp only [tempPost, hpp]
      rw [if_neg (sub_ne_zero.mpr hTneq)]
      simp [specSignedLine]
  · cases hpp : paths.tempMaxPath with
    | none => exact absurd hpp hM
    | some p =>
      rw [hpp] at hMneq
      simp only [tempMaxPost, hpp]
      rw [if_neg (sub_ne_zero.mpr hMneq)]
      simp [specSignedLine]

theorem c4_sign_magnitude_witness :
    hpPost false dnd5ePaths (actorHp 15) (some 10)
      = some { text := "HP: 10 + 5 → 15", cls := "tiny-monitor-gain", kind := "hp" } ∧
    hpPost false dnd5ePaths (actorHp 2) (some 5)
      = some { text := "HP: 5 - 3 → 2", cls := "tiny-monitor-loss", kind := "hp" } ∧
    formatDelta 5 = "+ 5" ∧
    formatDelta (-3) = "- 3" := by
  refine ⟨?_, ?_, ?_, ?_⟩
  · have h := (c4_sign_magnitude dnd5ePaths (actorHp 15) 10 rfl (by decide) (by decide)).1
    rw [h]; rfl
  · have h := (c4_sign_magnitude dnd5ePaths (actorHp 2) 5 rfl (by decide) (by decide)).1
    rw [h]; rfl
  · exact (c4_sign_magnitude dnd5ePaths (actorHp 15) 10 rfl (by decide) (by decide)).2.1
      (by decide)
  · exact (c4_sign_magnitude dnd5ePaths (actorHp 2) 5 rfl (by decide) (by decide)).2.2.1
      (by decide)

/-- C6: with `damageSystem = true` (the `demonlord` entry of the `part_002`
table) an increase of the tracked field classifies with the loss style tag
and a decrease with the gain style tag — the exact inverse of the default
mapping, in both the debounced variant (`hpCls`) and `part_002`
(`hpClsPart002`). -/
theorem c6_damage_system_inverts (delta : Int) :
    (0 < delta →
        hpCls true delta = "tiny-monitor-loss" ∧
        hpCls false delta = "tiny-monitor-gain" ∧
        hpClsPart002 true delta = "hp-loss" ∧
        hpClsPart002 false delta = "hp-gain") ∧
    (delta < 0 →
        hpCls true delta = "tiny-monitor-gain" ∧
        hpCls false delta = "tiny-monitor-loss" ∧
        hpClsPart002 true delta = "hp-gain" ∧
        hpClsPart002 false delta = "hp-loss") ∧
    detectSystemPathsPart002Known "demonlord"
      = some { hpPath := some "system.characteristics.health.value"
               tempPath := none
               tempMaxPath := some "system.characteristics.health.max"
               damageSystem := true } := by
  refine ⟨fun h => ?_, fun h => ?_, by rfl⟩
  · have h' : ¬ delta < 0 := by omega
    exact ⟨by simp [hpCls, h, h'], by simp [hpCls, h],
      by simp [hpClsPart002, h'], by simp [hpClsPart002, h]⟩
  · have h' : ¬ 0 < delta := by omega
    exact ⟨by simp [hpCls, h], by simp [hpCls, h'],
      by simp [hpClsPart002, h], by simp [hpClsPart002, h']⟩

theorem c6_damage_system_inverts_witness :
    (hpCls true 3 = "tiny-monitor-loss" ∧ hpCls false 3 = "tiny-monitor-gain" ∧
      hpClsPart002 true 3 = "hp-loss" ∧ hpClsPart002 false 3 = "hp-gain") ∧
    (hpCls true (-2) = "tiny-monitor-gain" ∧ hpCls false (-2) = "tiny-monitor-loss" ∧
      hpClsPart002 true (-2) = "hp-gain" ∧ hpClsPart002 false (-2) = "hp-loss") :=
  ⟨(c6_damage_system_inverts 3).1 (by decide),
   (c6_damage_system_inverts (-2)).2.1 (by decide)⟩

/-- C10: the `deleteItem` handler posts nothing when the deleted item tracks
a quantity whose pre-delete value is 0, and posts a deletion message exactly
when the item has no quantity field or its pre-delete quantity is nonzero. -/
theorem c10_delete_zero_qty_suppressed (isSimple : Bool) (s : DeleteStash) :
    (s.hasQty = true → s.qty = 0 → deleteItemLine isSimple (some s) = none) ∧
    ((deleteItemLine isSimple (some s)).isSome ↔
      (s.hasQty = false ∨ s.qty ≠ 0)) ∧
    deleteItemLine isSimple none = none := by
  refine ⟨fun h1 h2 => ?_, ?_, rfl⟩
  · simp [deleteItemLine, h1, h2]
  · have hred : deleteItemLine isSimple (some s)
        = if s.hasQty = true ∧ s.qty = 0 then none
          else if (¬s.hasQty = true ∨ s.qty ≤ 1) ∨ isSimple = true
            then some ("deleted " ++ s.name)
            else some (s.name ++ ": " ++ toString s.qty ++ " - " ++ toString s.qty ++ " → 0") :=
      rfl
    by_cases hq : s.hasQty = true ∧ s.qty = 0
    · simp [hred, hq.1, hq.2]
    · rw [hred, if_neg hq]
      constructor
      · intro _
        by_cases hA : s.hasQty = true
        · exact Or.inr fun h0 => hq ⟨hA, h0⟩
        · exact Or.inl (Bool.eq_false_iff.mpr hA)
      · intro _
        split <;> rfl

theorem c10_delete_zero_qty_suppressed_witness :
    deleteItemLine false (some { name := "Rope", qty := 0, hasQty := true }) = none ∧
    (deleteItemLine false (some { name := "Lantern", qty := 0, hasQty := false })).isSome
      = true :=
  ⟨(c10_delete_zero_qty_suppressed false { name := "Rope", qty := 0, hasQty := true }).1
      rfl rfl,
   (c10_delete_zero_qty_suppressed false
      { name := "Lantern", qty := 0, hasQty := false }).2.1.mpr (Or.inl rfl)⟩

lemma mem_map_id_dedupeByIdAux (a : String) (l : List User) : ∀ seen : List String,
    (a ∈ (dedupeByIdAux seen l).map (fun u => u.id) ↔
      (a ∈ l.map (fun u => u.id) ∧ a ∉ seen)) := by
  induction l with
  | nil => intro seen; simp [dedupeByIdAux]
  | cons u us ih =>
    intro seen
    by_cases h : u.id ∈ seen
    · rw [dedupeByIdAux, if_pos h]
      rw [ih seen]
      simp only [List.map_cons, List.mem_cons]
      constructor
      · rintro ⟨h1, h2⟩
        exact ⟨Or.inr h1, h2⟩
      · rintro ⟨h1 | h1, h2⟩
        · exact absurd (h1 ▸ h) h2
        · exact ⟨h1, h2⟩
    · rw [dedupeByIdAux, if_neg h]
      simp only [List.map_cons, List.mem_cons]
      rw [ih (u.id :: seen)]
      simp only [List.mem_cons]
      constructor
      · rintro (h1 | ⟨h1, h2⟩)
        · exact ⟨Or.inl h1, h1 ▸ h⟩
        · exact ⟨Or.inr h1, fun hs => h2 (Or.inr hs)⟩
      · rintro ⟨h1 | h1, h2⟩
        · exact Or.inl h1
        · by_cases hau : a = u.id
          · exact Or.inl hau
          · exact Or.inr ⟨h1, fun hs => hs.elim hau h2⟩

lemma mem_map_id_dedupeById (a : String) (l : List User) :
    a ∈ (dedupeById l).map (fun u => u.id) ↔ a ∈ l.map (fun u => u.id) := by
  unfold dedupeById
  rw [mem_map_id_dedupeByIdAux]
  simp

lemma gm_mem_buildRecipients (users : List User) (ownerTest : User → Bool)
    (actorType mode : String) (u : User) (hu : u ∈ users) (hgm : u.isGM = true) :
    u.id ∈ buildRecipients users ownerTest actorType mode := by
  have hmem : u ∈ users.filter (fun u => u.isGM) := List.mem_filter.mpr ⟨hu, hgm⟩
  unfold buildRecipients
  by_cases h1 : actorType = "npc" ∧ mode = "gm"
  · rw [if_pos h1]
    exact List.mem_map.mpr ⟨u, hmem, rfl⟩
  · rw [if_neg h1]
    by_cases h2 : actorType = "npc" ∧ mode = "gm-players"
    · rw [if_pos h2, mem_map_id_dedupeById]
      exact List.mem_map.mpr ⟨u, List.mem_append_left _ hmem, rfl⟩
    · rw [if_neg h2, mem_map_id_dedupeById]
      exact List.mem_map.mpr ⟨u, List.mem_append_left _ hmem, rfl⟩

lemma gm_mem_computedRecipients (users : List User) (ownerTest : User → Bool)
    (actorType mode : String) (u : User) (hu : u ∈ users) (hgm : u.isGM = true) :
    u.id ∈ (computedRecipients users ownerTest actorType mode).map (fun u => u.id) := by
  have hmem : u ∈ users.filter (fun u => u.isGM) := List.mem_filter.mpr ⟨hu, hgm⟩
  unfold computedRecipients
  by_cases h1 : actorType = "npc"
  · rw [if_pos h1]
    by_cases h2 : mode = "gm"
    · rw [if_pos h2]
      exact List.mem_map.mpr ⟨u, hmem, rfl⟩
    · rw [if_neg h2]
      by_cases h3 : mode = "gm-players"
      · rw [if_pos h3, mem_map_id_dedupeById]
        exact List.mem_map.mpr ⟨u, List.mem_append_left _ hmem, rfl⟩
      · rw [if_neg h3, mem_map_id_dedupeById]
        exact List.mem_map.mpr ⟨u, List.mem_append_left _ hmem, rfl⟩
  · rw [if_neg h1, mem_map_id_dedupeById]
    exact List.mem_map.mpr ⟨u, List.mem_append_left _ hmem, rfl⟩

lemma buildRecipientsFallback_reduce (users : List User) (ownerTest : User → Bool)
    (actorType mode : String) :
    buildRecipientsFallback users ownerTest actorType mode
      = (if (computedRecipients users ownerTest actorType mode).isEmpty
         then users.filter (fun u => u.isGM)
         else computedRecipients users ownerTest actorType mode).map (fun u => u.id) :=
  rfl

/-- C2 counterexample: with no users at all (so in particular no
game-master user), both `buildRecipients` variants return an empty whisper
list — the claim's "the recipient list ... is non-empty" fails as stated. -/
theorem c2_recipients_counterexample :
    buildRecipients [] (fun _ => false) "npc" "gm-owners" = [] ∧
    buildRecipientsFallback [] (fun _ => false) "npc" "gm-owners" = [] :=
  ⟨rfl, rfl⟩

/-- C2 amended: the recipient list always contains the id of every
game-master user; in the variant with the safety fallback, whenever the
computed recipients would be empty the result is exactly the game-master id
list, and the result is therefore non-empty whenever at least one
game-master user exists (it can be empty only when there is none). -/
theorem c2_recipients_amended (users : List User) (ownerTest : User → Bool)
    (actorType mode : String) :
    (∀ u, u ∈ users → u.isGM = true →
        u.id ∈ buildRecipients users ownerTest actorType mode) ∧
    (∀ u, u ∈ users → u.isGM = true →
        u.id ∈ buildRecipientsFallback users ownerTest actorType mode) ∧
    (computedRecipients users ownerTest actorType mode = [] →
        buildRecipientsFallback users ownerTest actorType mode
          = (users.filter (fun u => u.isGM)).map (fun u => u.id)) ∧
    (users.filter (fun u => u.isGM) ≠ [] →
        buildRecipientsFallback users ownerTest actorType mode ≠ []) := by
  refine ⟨fun u hu hgm => gm_mem_buildRecipients users ownerTest actorType mode u hu hgm,
    fun u hu hgm => ?_, fun h => ?_, fun hne => ?_⟩
  · rw [buildRecipientsFallback_reduce]
    by_cases hE : (computedRecipients users ownerTest actorType mode).isEmpty
    · rw [if_pos hE]
      exact List.mem_map.mpr ⟨u, List.mem_filter.mpr ⟨hu, hgm⟩, rfl⟩
    · rw [if_neg hE]
      exact gm_mem_computedRecipients users ownerTest actorType mode u hu hgm
  · rw [buildRecipientsFallback_reduce, h]
    rfl
  · obtain ⟨u, hu⟩ := List.exists_mem_of_ne_nil _ hne
    have hu' : u ∈ users := (List.mem_filter.mp hu).1
    have hgm : u.isGM = true := (List.mem_filter.mp hu).2
    have hmem : u.id ∈ buildRecipientsFallback users ownerTest actorType mode := by
      rw [buildRecipientsFallback_reduce]
      by_cases hE : (computedRecipients users ownerTest actorType mode).isEmpty
      · rw [if_pos hE]
        exact List.mem_map.mpr ⟨u, hu, rfl⟩
      · rw [if_neg hE]
        exact gm_mem_computedRecipients users ownerTest actorType mode u hu' hgm
    exact List.ne_nil_of_mem hmem

/-- Users for the C2 witness: one game master, one owner-less player. -/
def gmAlice : User := { id := "alice", isGM := true }

def playerBob : User := { id := "bob", isGM := false }

theorem c2_recipients_amended_witness :
    "alice" ∈ buildRecipients [gmAlice, playerBob] (fun _ => false) "npc" "gm-owners" ∧
    buildRecipientsFallback [playerBob] (fun _ => false) "character" "gm-owners"
      = ([playerBob].filter (fun u => u.isGM)).map (fun u => u.id) ∧
    buildRecipientsFallback [gmAlice, playerBob] (fun _ => false) "npc" "gm" ≠ [] := by
  refine ⟨?_, ?_, ?_⟩
  · exact (c2_recipients_amended [gmAlice, playerBob] (fun _ => false) "npc" "gm-owners").1
      gmAlice (by decide) rfl
  · exact (c2_recipients_amended [playerBob] (fun _ => false) "character" "gm-owners").2.2.1
      (by decide)
  · exact (c2_recipients_amended [gmAlice, playerBob] (fun _ => false) "npc" "gm").2.2.2
      (by decide)

/-- C5 counterexample: the `preUpdateActor` callback of the debounced
variant has no try/catch; when `game.system` is undefined the member access
`game.system.id` raises a TypeError that propagates to the host's hook
dispatch loop. -/
theorem c5_boundary_counterexample :
    preUpdateActorDebounced { system := none, options := some () } dnd5ePaths
      ["system.attributes.hp.value"]
      = Except.error "TypeError: Cannot read properties of undefined (reading id)" :=
  rfl

/-- C5 amended: the `preUpdateActor` callback of the non-debounced variant
is wrapped in try/catch and returns normally on every input, so no exception
escapes into the host's dispatch loop; the debounced variant's callback is
not wrapped, and with `game.system` undefined it propagates a TypeError. -/
theorem c5_exception_boundary (host : HookHost) (paths : PathTable)
    (update : List String) :
    preUpdateActorWrapped host paths update = Except.ok () ∧
    (host.system = none →
        preUpdateActorDebounced host paths update
          = Except.error "TypeError: Cannot read properties of undefined (reading id)") := by
  constructor
  · unfold preUpdateActorWrapped
    cases h : preUpdateActorBody host paths update <;> rfl
  · intro h
    unfold preUpdateActorDebounced
    rw [h]
    rfl

theorem c5_exception_boundary_witness :
    preUpdateActorWrapped { system := none, options := some () } dnd5ePaths
        ["system.attributes.hp.value"] = Except.ok () ∧
    preUpdateActorDebounced { system := none, options := some () } dnd5ePaths
        ["system.attributes.hp.value"]
      = Except.error "TypeError: Cannot read properties of undefined (reading id)" := by
  have h := c5_exception_boundary { system := none, options := some () } dnd5ePaths
    ["system.attributes.hp.value"]
  exact ⟨h.1, h.2 rfl⟩

/-- C7 counterexample: in the `part_002` variant a quantity change from 0 to
1 posts the full signed arithmetic line, not an "added" phrase. -/
theorem c7_item_quantity_counterexample :
    itemQtyLinePart002 "Hero" "Sword" 0 1
      = some "Hero\x27s Item: Sword — 0 + 1 → 1" ∧
    itemQtyLinePart002 "Hero" "Sword" 0 1 ≠ some "added Sword" :=
  ⟨rfl, by decide⟩

/-- C7 amended: in `processItemUpdate` of the debounced variant a 0→1
transition posts the added phrase, a 1→0 transition the deleted phrase, and
any other changed pair a signed-delta line (full transition when simplified
output is off, only sign and magnitude when it is on); the `part_002`
variant posts the signed transition line for every changed pair, including
0→1 and 1→0. -/
theorem c7_item_quantity_amended (isSimple : Bool) (nm dn : String)
    (oldQty newQty : Int) (hne : newQty ≠ oldQty) :
    (oldQty = 0 → newQty = 1 →
        itemQtyPost isSimple nm oldQty newQty
          = some ("added " ++ nm, "tiny-monitor-item-inc")) ∧
    (oldQty = 1 → newQty = 0 →
        itemQtyPost isSimple nm oldQty newQty
          = some ("deleted " ++ nm, "tiny-monitor-item-dec")) ∧
    (¬(oldQty = 0 ∧ newQty = 1) → ¬(oldQty = 1 ∧ newQty = 0) →
        itemQtyPost isSimple nm oldQty newQty
          = some (nm ++ ": " ++
              (if isSimple
               then (if newQty - oldQty > 0 then "+" else "-") ++ " "
                      ++ toString (newQty - oldQty).natAbs
               else toString oldQty ++ " "
                      ++ (if newQty - oldQty > 0 then "+" else "-") ++ " "
                      ++ toString (newQty - oldQty).natAbs ++ " → " ++ toString newQty),
              if newQty - oldQty > 0 then "tiny-monitor-item-inc"
              else "tiny-monitor-item-dec")) ∧
    itemQtyLinePart002 dn nm oldQty newQty
      = some (dn ++ "\x27s Item: " ++ nm ++ " — " ++ toString oldQty ++ " "
          ++ (if newQty - oldQty > 0 then "+" else "-") ++ " "
          ++ toString (newQty - oldQty).natAbs ++ " → " ++ toString newQty) := by
  refine ⟨fun h0 h1 => ?_, fun h0 h1 => ?_, fun hno1 hno0 => ?_, ?_⟩
  · unfold itemQtyPost
    rw [if_neg hne, if_pos ⟨h0, h1⟩]
  · unfold itemQtyPost
    rw [if_neg hne, if_neg (by rintro ⟨ha, hb⟩; omega), if_pos ⟨h0, h1⟩]
  · unfold itemQtyPost
    rw [if_neg hne, if_neg hno1, if_neg hno0]
  · unfold itemQtyLinePart002
    rw [if_neg hne]

theorem c7_item_quantity_amended_witness :
    itemQtyPost false "Arrows" 5 3 = some ("Arrows: 5 - 2 → 3", "tiny-monitor-item-dec") ∧
    itemQtyPost false "Torch" 0 1 = some ("added Torch", "tiny-monitor-item-inc") ∧
    itemQtyPost false "Torch" 1 0 = some ("deleted Torch", "tiny-monitor-item-dec") ∧
    itemQtyLinePart002 "Hero" "Arrows" 5 3
      = some "Hero\x27s Item: Arrows — 5 - 2 → 3" := by
  refine ⟨?_, ?_, ?_, ?_⟩
  · have h := (c7_item_quantity_amended false "Arrows" "Hero" 5 3 (by decide)).2.2.1
      (by decide) (by decide)
    rw [h]; rfl
  · exact (c7_item_quantity_amended false "Torch" "Hero" 0 1 (by decide)).1 rfl rfl
  · exact (c7_item_quantity_amended false "Torch" "Hero" 1 0 (by decide)).2.1 rfl rfl
  · have h := (c7_item_quantity_amended false "Arrows" "Hero" 5 3 (by decide)).2.2.2
    rw [h]; rfl

end TinyHpMonitor
